import Mathlib

/-!
Verification of the ICAO 9303 BAC / secure-messaging core of `src/src/main.rs`.

Bytes are modelled as `Nat` values below 256, byte strings as `List Nat`,
machine integers as `Nat` with explicit reduction modulo `2 ^ w` where the
Rust code wraps. Fallible Rust code (`Result`, panics) is modelled with
`Except` / `Option` / an explicit three-way result type.

The crate modules `tdes`, `iso7816` and `nfc` that `main.rs` uses are not
part of the provided sources; the functions taken from them are modelled
from the specification and marked as such in their doc comments. SHA-1 is
the external `sha1` crate; it is embedded here following FIPS 180 and is
validated end-to-end by the published ICAO test vectors proved below.
-/

set_option maxRecDepth 100000

namespace Icao

/-- Big-endian byte list of width `w` for the natural number `x`
(each byte reduced modulo 256, mirroring fixed-width machine words). -/
def beBytes (w : Nat) (x : Nat) : List Nat :=
  (List.range w).map (fun i => (x >>> (8 * (w - 1 - i))) % 256)

/-- Big-endian interpretation of a byte list as a natural number. -/
def fromBeBytes (l : List Nat) : Nat :=
  l.foldl (fun a b => 256 * a + b) 0

/-- Fuel-driven splitting of a list into chunks of `k` elements. -/
def chunkAux (k : Nat) : Nat → List Nat → List (List Nat)
  | 0, _ => []
  | _, [] => []
  | fuel + 1, l => l.take k :: chunkAux k fuel (l.drop k)

/-- Split a list into chunks of `k` elements (the last chunk may be short). -/
def chunkN (k : Nat) (l : List Nat) : List (List Nat) :=
  chunkAux k l.length l

/-- Rotate a 32-bit word left by `n` places. -/
def rotl32 (x n : Nat) : Nat :=
  ((x <<< n) ||| (x >>> (32 - n))) % 2 ^ 32

/-- SHA-1 message padding: append 0x80, zero bytes, and the 64-bit big-endian
bit length, reaching a multiple of 64 bytes (FIPS 180). -/
def sha1Pad (msg : List Nat) : List Nat :=
  msg ++ [0x80] ++ List.replicate ((64 - (msg.length + 9) % 64) % 64) 0
      ++ beBytes 8 (8 * msg.length)

/-- SHA-1 round function `f_t` (FIPS 180). -/
def sha1F (t b c d : Nat) : Nat :=
  if t < 20 then ((b &&& c) ||| ((b ^^^ 0xFFFFFFFF) &&& d))
  else if t < 40 then (b ^^^ c ^^^ d)
  else if t < 60 then ((b &&& c) ||| (b &&& d) ||| (c &&& d))
  else (b ^^^ c ^^^ d)

/-- SHA-1 round constant `K_t` (FIPS 180). -/
def sha1K (t : Nat) : Nat :=
  if t < 20 then 0x5A827999
  else if t < 40 then 0x6ED9EBA1
  else if t < 60 then 0x8F1BBCDC
  else 0xCA62C1D6

/-- Expand the 16 words of a SHA-1 block to the 80-word message schedule. -/
def sha1Schedule (ws : List Nat) : List Nat :=
  (List.range 64).foldl
    (fun w _ =>
      let n := w.length
      w ++ [rotl32 ((w.getD (n - 3) 0) ^^^ (w.getD (n - 8) 0) ^^^
                    (w.getD (n - 14) 0) ^^^ (w.getD (n - 16) 0)) 1])
    ws

/-- SHA-1 compression of one 64-byte block into the running 5-word state. -/
def sha1Block (h : List Nat) (block : List Nat) : List Nat :=
  let ws := sha1Schedule ((chunkN 4 block).map fromBeBytes)
  let st := (List.range 80).foldl
    (fun (st : Nat × Nat × Nat × Nat × Nat) t =>
      let a := st.1; let b := st.2.1; let c := st.2.2.1
      let d := st.2.2.2.1; let e := st.2.2.2.2
      let tmp := (rotl32 a 5 + sha1F t b c d + e + sha1K t + ws.getD t 0) % 2 ^ 32
      (tmp, a, rotl32 b 30, c, d))
    (h.getD 0 0, h.getD 1 0, h.getD 2 0, h.getD 3 0, h.getD 4 0)
  [(h.getD 0 0 + st.1) % 2 ^ 32, (h.getD 1 0 + st.2.1) % 2 ^ 32,
   (h.getD 2 0 + st.2.2.1) % 2 ^ 32, (h.getD 3 0 + st.2.2.2.1) % 2 ^ 32,
   (h.getD 4 0 + st.2.2.2.2) % 2 ^ 32]

/-- SHA-1 digest (20 bytes) of a byte string (FIPS 180). -/
def sha1 (msg : List Nat) : List Nat :=
  let hs := (chunkN 64 (sha1Pad msg)).foldl sha1Block
    [0x67452301, 0xEFCDAB89, 0x98BADCFE, 0x10325476, 0xC3D2E1F0]
  ((hs.map (beBytes 4)).flatten)

/-- Bit `p` (1-based, most significant first) of the `w`-bit value `x`. -/
def bitOf (x w p : Nat) : Nat :=
  (x >>> (w - p)) &&& 1

/-- Apply a FIPS 46-3 permutation table to a `w`-bit value: output bit `i`
is input bit `tbl[i]`. -/
def perm (w : Nat) (tbl : List Nat) (x : Nat) : Nat :=
  tbl.foldl (fun a p => 2 * a + bitOf x w p) 0

/-- Initial permutation IP (FIPS 46-3). -/
def ipTbl : List Nat :=
  [58, 50, 42, 34, 26, 18, 10, 2, 60, 52, 44, 36, 28, 20, 12, 4,
   62, 54, 46, 38, 30, 22, 14, 6, 64, 56, 48, 40, 32, 24, 16, 8,
   57, 49, 41, 33, 25, 17, 9, 1, 59, 51, 43, 35, 27, 19, 11, 3,
   61, 53, 45, 37, 29, 21, 13, 5, 63, 55, 47, 39, 31, 23, 15, 7]

/-- Final permutation, the inverse of IP (FIPS 46-3). -/
def fpTbl : List Nat :=
  [40, 8, 48, 16, 56, 24, 64, 32, 39, 7, 47, 15, 55, 23, 63, 31,
   38, 6, 46, 14, 54, 22, 62, 30, 37, 5, 45, 13, 53, 21, 61, 29,
   36, 4, 44, 12, 52, 20, 60, 28, 35, 3, 43, 11, 51, 19, 59, 27,
   34, 2, 42, 10, 50, 18, 58, 26, 33, 1, 41, 9, 49, 17, 57, 25]

/-- Expansion E from 32 to 48 bits (FIPS 46-3). -/
def eTbl : List Nat :=
  [32, 1, 2, 3, 4, 5, 4, 5, 6, 7, 8, 9, 8, 9, 10, 11, 12, 13,
   12, 13, 14, 15, 16, 17, 16, 17, 18, 19, 20, 21, 20, 21, 22, 23, 24, 25,
   24, 25, 26, 27, 28, 29, 28, 29, 30, 31, 32, 1]

/-- Permutation P of the round function (FIPS 46-3). -/
def pTbl : List Nat :=
  [16, 7, 20, 21, 29, 12, 28, 17, 1, 15, 23, 26, 5, 18, 31, 10,
   2, 8, 24, 14, 32, 27, 3, 9, 19, 13, 30, 6, 22, 11, 4, 25]

/-- Permuted choice 1, 64 key bits to 56 (FIPS 46-3). -/
def pc1Tbl : List Nat :=
  [57, 49, 41, 33, 25, 17, 9, 1, 58, 50, 42, 34, 26, 18,
   10, 2, 59, 51, 43, 35, 27, 19, 11, 3, 60, 52, 44, 36,
   63, 55, 47, 39, 31, 23, 15, 7, 62, 54, 46, 38, 30, 22,
   14, 6, 61, 53, 45, 37, 29, 21, 13, 5, 28, 20, 12, 4]

/-- Permuted choice 2, 56 bits to the 48-bit subkey (FIPS 46-3). -/
def pc2Tbl : List Nat :=
  [14, 17, 11, 24, 1, 5, 3, 28, 15, 6, 21, 10,
   23, 19, 12, 4, 26, 8, 16, 7, 27, 20, 13, 2,
   41, 52, 31, 37, 47, 55, 30, 40, 51, 45, 33, 48,
   44, 49, 39, 56, 34, 53, 46, 42, 50, 36, 29, 32]

/-- The eight DES S-boxes, each as 64 entries indexed by `16 * row + column`
(FIPS 46-3). -/
def sBoxes : List (List Nat) :=
  [[14, 4, 13, 1, 2, 15, 11, 8, 3, 10, 6, 12, 5, 9, 0, 7,
    0, 15, 7, 4, 14, 2, 13, 1, 10, 6, 12, 11, 9, 5, 3, 8,
    4, 1, 14, 8, 13, 6, 2, 11, 15, 12, 9, 7, 3, 10, 5, 0,
    15, 12, 8, 2, 4, 9, 1, 7, 5, 11, 3, 14, 10, 0, 6, 13],
   [15, 1, 8, 14, 6, 11, 3, 4, 9, 7, 2, 13, 12, 0, 5, 10,
    3, 13, 4, 7, 15, 2, 8, 14, 12, 0, 1, 10, 6, 9, 11, 5,
    0, 14, 7, 11, 10, 4, 13, 1, 5, 8, 12, 6, 9, 3, 2, 15,
    13, 8, 10, 1, 3, 15, 4, 2, 11, 6, 7, 12, 0, 5, 14, 9],
   [10, 0, 9, 14, 6, 3, 15, 5, 1, 13, 12, 7, 11, 4, 2, 8,
    13, 7, 0, 9, 3, 4, 6, 10, 2, 8, 5, 14, 12, 11, 15, 1,
    13, 6, 4, 9, 8, 15, 3, 0, 11, 1, 2, 12, 5, 10, 14, 7,
    1, 10, 13, 0, 6, 9, 8, 7, 4, 15, 14, 3, 11, 5, 2, 12],
   [7, 13, 14, 3, 0, 6, 9, 10, 1, 2, 8, 5, 11, 12, 4, 15,
    13, 8, 11, 5, 6, 15, 0, 3, 4, 7, 2, 12, 1, 10, 14, 9,
    10, 6, 9, 0, 12, 11, 7, 13, 15, 1, 3, 14, 5, 2, 8, 4,
    3, 15, 0, 6, 10, 1, 13, 8, 9, 4, 5, 11, 12, 7, 2, 14],
   [2, 12, 4, 1, 7, 10, 11, 6, 8, 5, 3, 15, 13, 0, 14, 9,
    14, 11, 2, 12, 4, 7, 13, 1, 5, 0, 15, 10, 3, 9, 8, 6,
    4, 2, 1, 11, 10, 13, 7, 8, 15, 9, 12, 5, 6, 3, 0, 14,
    11, 8, 12, 7, 1, 14, 2, 13, 6, 15, 0, 9, 10, 4, 5, 3],
   [12, 1, 10, 15, 9, 2, 6, 8, 0, 13, 3, 4, 14, 7, 5, 11,
    10, 15, 4, 2, 7, 12, 9, 5, 6, 1, 13, 14, 0, 11, 3, 8,
    9, 14, 15, 5, 2, 8, 12, 3, 7, 0, 4, 10, 1, 13, 11, 6,
    4, 3, 2, 12, 9, 5, 15, 10, 11, 14, 1, 7, 6, 0, 8, 13],
   [4, 11, 2, 14, 15, 0, 8, 13, 3, 12, 9, 7, 5, 10, 6, 1,
    13, 0, 11, 7, 4, 9, 1, 10, 14, 3, 5, 12, 2, 15, 8, 6,
    1, 4, 11, 13, 12, 3, 7, 14, 10, 15, 6, 8, 0, 5, 9, 2,
    6, 11, 13, 8, 1, 4, 10, 7, 9, 5, 0, 15, 14, 2, 3, 12],
   [13, 2, 8, 4, 6, 15, 11, 1, 10, 9, 3, 14, 5, 0, 12, 7,
    1, 15, 13, 8, 10, 3, 7, 4, 12, 5, 6, 11, 0, 14, 9, 2,
    7, 11, 4, 1, 9, 12, 14, 2, 0, 6, 10, 13, 15, 3, 5, 8,
    2, 1, 14, 7, 4, 10, 8, 13, 15, 12, 9, 0, 3, 5, 6, 11]]

/-- Apply the eight S-boxes to a 48-bit value, producing 32 bits. -/
def sBoxApply (x : Nat) : Nat :=
  (List.range 8).foldl
    (fun acc i =>
      let b := (x >>> (42 - 6 * i)) &&& 63
      let row := ((b >>> 4) &&& 2) + (b &&& 1)
      let col := (b >>> 1) &&& 15
      acc * 16 + (sBoxes.getD i []).getD (16 * row + col) 0)
    0

/-- The DES round function `f(R, K)` (FIPS 46-3). -/
def desF (r k : Nat) : Nat :=
  perm 32 pTbl (sBoxApply ((perm 32 eTbl r) ^^^ k))

/-- Left-rotation schedule of the DES key schedule (FIPS 46-3). -/
def shiftSched : List Nat :=
  [1, 1, 2, 2, 2, 2, 2, 2, 1, 2, 2, 2, 2, 2, 2, 1]

/-- Rotate a 28-bit half-key left by `n` places. -/
def rotl28 (x n : Nat) : Nat :=
  ((x <<< n) ||| (x >>> (28 - n))) % 2 ^ 28

/-- The sixteen 48-bit DES subkeys of a 64-bit key (FIPS 46-3). -/
def desSubkeys (key : Nat) : List Nat :=
  let k56 := perm 64 pc1Tbl key
  (shiftSched.foldl
    (fun (st : Nat × Nat × List Nat) s =>
      let c := rotl28 st.1 s
      let d := rotl28 st.2.1 s
      (c, d, st.2.2 ++ [perm 56 pc2Tbl (c * 2 ^ 28 + d)]))
    (k56 >>> 28, k56 % 2 ^ 28, [])).2.2

/-- Run the sixteen DES rounds over a 64-bit `L ‖ R` state. -/
def desRounds (ks : List Nat) (lr : Nat) : Nat :=
  ks.foldl
    (fun lr k =>
      let l := lr >>> 32
      let r := lr % 2 ^ 32
      r * 2 ^ 32 + (l ^^^ desF r k))
    lr

/-- Single-DES encryption of one 64-bit block (FIPS 46-3). -/
def desEncBlock (key x : Nat) : Nat :=
  let lr := desRounds (desSubkeys key) (perm 64 ipTbl x)
  perm 64 fpTbl ((lr % 2 ^ 32) * 2 ^ 32 + (lr >>> 32))

/-- Single-DES decryption of one 64-bit block (subkeys in reverse order). -/
def desDecBlock (key x : Nat) : Nat :=
  let lr := desRounds (desSubkeys key).reverse (perm 64 ipTbl x)
  perm 64 fpTbl ((lr % 2 ^ 32) * 2 ^ 32 + (lr >>> 32))

/-- Two-key triple-DES EDE encryption of one block, with `k1` the first and
`k2` the second 8-byte key half. -/
def tdeaEnc (k1 k2 x : Nat) : Nat :=
  desEncBlock k1 (desDecBlock k2 (desEncBlock k1 x))

/-- Two-key triple-DES DED decryption of one block. -/
def tdeaDec (k1 k2 x : Nat) : Nat :=
  desDecBlock k1 (desEncBlock k2 (desDecBlock k1 x))

/-- ISO 9797-1 padding method 2: append 0x80, then zero bytes up to a
multiple of 8. -/
def pad80 (l : List Nat) : List Nat :=
  let m := l ++ [0x80]
  m ++ List.replicate ((8 - m.length % 8) % 8) 0

/-- CBC chaining (zero IV handled by the initial `prev`) of two-key
triple-DES encryption over a list of 64-bit blocks. -/
def encBlocks (k1 k2 : Nat) : Nat → List Nat → List Nat
  | _, [] => []
  | prev, b :: bs =>
    let c := tdeaEnc k1 k2 (prev ^^^ b)
    c :: encBlocks k1 k2 c bs

/-- CBC chaining of two-key triple-DES decryption over 64-bit blocks. -/
def decBlocks (k1 k2 : Nat) : Nat → List Nat → List Nat
  | _, [] => []
  | prev, b :: bs => (prev ^^^ tdeaDec k1 k2 b) :: decBlocks k1 k2 b bs

/-- Single-DES CBC compression of a list of 64-bit blocks, as used by the
retail MAC. -/
def macBlocks (k1 : Nat) : Nat → List Nat → Nat
  | h, [] => h
  | h, b :: bs => macBlocks k1 (desEncBlock k1 (h ^^^ b)) bs

/-- Modelled from the spec: `tdes::enc_3des` is absent from the provided
sources; per §4.1 it is two-key triple-DES in CBC mode with a zero IV over
data whose length is a multiple of 8, keyed by a 16-byte key. -/
def enc_3des (key : List Nat) (data : List Nat) : List Nat :=
  ((encBlocks (fromBeBytes (key.take 8)) (fromBeBytes (key.drop 8)) 0
      ((chunkN 8 data).map fromBeBytes)).map (beBytes 8)).flatten

/-- Modelled from the spec: `tdes::dec_3des` is absent from the provided
sources; per §4.1 it is the CBC inverse of `enc_3des` with a zero IV. -/
def dec_3des (key : List Nat) (data : List Nat) : List Nat :=
  ((decBlocks (fromBeBytes (key.take 8)) (fromBeBytes (key.drop 8)) 0
      ((chunkN 8 data).map fromBeBytes)).map (beBytes 8)).flatten

/-- Modelled from the spec: `tdes::mac_3des` is absent from the provided
sources; per §4.1 and the glossary it is the ISO 9797-1 retail MAC
(algorithm 3): single-DES CBC chaining under the first key half, a final
decrypt under the second half and encrypt under the first, truncated to
8 bytes. The §8 `enc_apdu` test vector MACs a 27-byte string, so padding
method 2 is applied internally, as ICAO 9303 prescribes. -/
def mac_3des (key : List Nat) (data : List Nat) : List Nat :=
  beBytes 8 (desEncBlock (fromBeBytes (key.take 8))
    (desDecBlock (fromBeBytes (key.drop 8))
      (macBlocks (fromBeBytes (key.take 8)) 0
        ((chunkN 8 (pad80 data)).map fromBeBytes))))

/-- Number of set bits among the low 8 bits of a byte. -/
def bitsum8 (b : Nat) : Nat :=
  (List.range 8).foldl (fun a i => a + ((b >>> i) &&& 1)) 0

/-- Modelled from the spec: `tdes::set_parity_bits` is absent from the
provided sources; per §4.1 it forces the low bit of every byte so that the
byte has odd parity. -/
def set_parity_bits (k : List Nat) : List Nat :=
  k.map (fun b => (b >>> 1) * 2 + (1 - bitsum8 (b >>> 1) % 2))

/-- ASCII bytes of a string, as `mrz.as_bytes()` yields for the MRZ. -/
def strBytes (s : String) : List Nat :=
  s.data.map Char.toNat

/-- Embedding of `seed_from_mrz` (main.rs 275-280): the first 16 bytes of
the SHA-1 digest of the MRZ string. -/
def seed_from_mrz (mrz : List Nat) : List Nat :=
  (sha1 mrz).take 16

/-- Embedding of `derive_key` (main.rs 286-294): the first 16 bytes of
SHA-1(seed ‖ 4-byte big-endian counter), parity-corrected. -/
def derive_key (seed : List Nat) (counter : Nat) : List Nat :=
  set_parity_bits ((sha1 (seed ++ beBytes 4 counter)).take 16)

/-- Embedding of `derive_keys` (main.rs 282-284): Kenc with counter 1,
Kmac with counter 2. -/
def derive_keys (seed : List Nat) : List Nat × List Nat :=
  (derive_key seed 1, derive_key seed 2)

/-- Embedding of `enc_apdu` (main.rs 296-322). The Rust function slices
`apdu[0]`, `apdu[0..4]` and `apdu[5..]` unconditionally, panicking on any
input shorter than 5 bytes; `none` models that panic, `some` the normal
return. -/
def enc_apdu (keys : List Nat × List Nat) (ssc : Nat) (apdu : List Nat) :
    Option (List Nat) :=
  if apdu.length < 5 then none
  else
    let apdu1 := ((apdu.headD 0) ||| 0x0C) :: apdu.tail
    let cmd_header := apdu1.take 4 ++ [0x80, 0x00, 0x00, 0x00]
    let cmd_data := enc_3des keys.1 (pad80 (apdu1.drop 5))
    let n := beBytes 8 ssc ++ cmd_header ++ [0x87, 0x09, 0x01] ++ cmd_data
    let mac := mac_3des keys.2 n
    some (apdu1.take 4 ++ [0x15] ++ [0x87, 0x09, 0x01] ++ cmd_data
          ++ [0x8E, 0x08] ++ mac ++ [0x00])

/-- Embedding of the protect idiom of `main` (main.rs 266-268): the send
sequence counter is advanced by `wrapping_add(1)` and the advanced value is
the one handed to `enc_apdu`. -/
def protect (keys : List Nat × List Nat) (apdu : List Nat) (ssc : Nat) :
    Nat × Option (List Nat) :=
  let ssc1 := (ssc + 1) % 2 ^ 64
  (ssc1, enc_apdu keys ssc1 apdu)

/-- Sequential protect calls: returns the final counter and, per call, the
counter value consumed (folded into the MAC) with the produced APDU. -/
def protectRun (keys : List Nat × List Nat) (ssc : Nat) :
    List (List Nat) → Nat × List (Nat × Option (List Nat))
  | [] => (ssc, [])
  | a :: as =>
    let p := protect keys a ssc
    let rest := protectRun keys p.1 as
    (rest.1, (p.1, p.2) :: rest.2)

/-- Modelled from the spec: `iso7816::StatusWord::is_success` is absent
from the provided sources; the status word is the 2-byte ISO 7816-4
trailer (§6) and success is the standard `9000`. -/
def is_success (sw : Nat) : Bool :=
  sw = 0x9000

/-- Modelled from the spec: `iso7816::StatusWord::data_remaining` is absent
from the provided sources; ISO 7816-4 signals remaining response bytes with
a `61 XX` status, and any other status has none. -/
def data_remaining (sw : Nat) : Option Nat :=
  if sw >>> 8 = 0x61 then some (sw % 256) else none

/-- The GET CHALLENGE command APDU sent by `get_challenge` (main.rs 130). -/
def get_challenge_apdu : List Nat :=
  [0x00, 0x84, 0x00, 0x00, 0x08]

/-- Embedding of the response handling of `get_challenge` (main.rs
129-137) as a function of the transport result: non-success status,
residual data, or a length other than 8 produce an error. -/
def get_challenge_handle (sw : Nat) (data : List Nat) :
    Except Unit (List Nat) :=
  if ¬ is_success sw then .error ()
  else if data_remaining sw ≠ none then .error ()
  else if data.length ≠ 8 then .error ()
  else .ok data

/-- Three-way result of a Rust call that may panic. -/
inductive RunResult (α : Type) where
  | panicked : RunResult α
  | failed : RunResult α
  | ok : α → RunResult α
deriving DecidableEq, Repr

/-- The EXTERNAL AUTHENTICATE command APDU built by `external_authenticate`
(main.rs 141-143) for a given payload. -/
def external_authenticate_apdu (payload : List Nat) : List Nat :=
  [0x00, 0x82, 0x00, 0x00, 0x28] ++ payload ++ [0x00]

/-- Embedding of `external_authenticate` (main.rs 139-149) as a function of
the payload and the transport result: `assert_eq!(data.len(), 0x28)` panics
on any payload not exactly 40 bytes; a non-success status is an error; on
success the response bytes are returned with no length or residual check. -/
def external_authenticate (payload : List Nat) (sw : Nat)
    (data : List Nat) : RunResult (List Nat) :=
  if payload.length ≠ 0x28 then .panicked
  else if ¬ is_success sw then .failed
  else .ok data

/-- Embedding of the EXTERNAL AUTHENTICATE response processing of `main`
(main.rs 234-246): length check, retail-MAC check over the first 32 bytes
against the trailing 8, decryption under Kenc, the two nonce checks, and
extraction of `k.ic` from plaintext bytes 16..32. -/
def bac_process (kenc kmac rnd_ic rnd_ifd resp : List Nat) :
    Except Unit (List Nat) :=
  if resp.length ≠ 40 then .error ()
  else if resp.drop 32 ≠ mac_3des kmac (resp.take 32) then .error ()
  else
    let plain := dec_3des kenc (resp.take 32)
    if plain.take 8 ≠ rnd_ic then .error ()
    else if (plain.drop 8).take 8 ≠ rnd_ifd then .error ()
    else .ok (plain.drop 16)

/-- Embedding of the success path of `main` after EXTERNAL AUTHENTICATE
(main.rs 232-259): process the response into `k.ic`, derive the session
keys from the XOR seed, and seed the send sequence counter from the low
halves of the two nonces. -/
def bac_handshake (kenc kmac rnd_ic rnd_ifd k_ifd resp : List Nat) :
    Except Unit ((List Nat × List Nat) × Nat) :=
  match bac_process kenc kmac rnd_ic rnd_ifd resp with
  | .error e => .error e
  | .ok k_ic =>
    let seed := (List.range 16).map (fun i => (k_ifd.getD i 0) ^^^ (k_ic.getD i 0))
    .ok (derive_keys seed,
         fromBeBytes ((rnd_ic.drop 4 ++ rnd_ifd.drop 4).take 8))

/-- The ICAO 9303-11 appendix D seed, SHA-1 of the example MRZ truncated. -/
def seedEx1 : List Nat :=
  [0x23, 0x9A, 0xB9, 0xCB, 0x28, 0x2D, 0xAF, 0x66,
   0x23, 0x1D, 0xC5, 0xA4, 0xDF, 0x6B, 0xFB, 0xAE]

/-- The published Kenc for `seedEx1`. -/
def kencEx1 : List Nat :=
  [0xAB, 0x94, 0xFD, 0xEC, 0xF2, 0x67, 0x4F, 0xDF,
   0xB9, 0xB3, 0x91, 0xF8, 0x5D, 0x7F, 0x76, 0xF2]

/-- The published Kmac for `seedEx1`. -/
def kmacEx1 : List Nat :=
  [0x79, 0x62, 0xD9, 0xEC, 0xE0, 0x3D, 0x1A, 0xCD,
   0x4C, 0x76, 0x08, 0x9D, 0xCE, 0x13, 0x15, 0x43]

/-- The ICAO 9303-11 appendix D session seed. -/
def kseed2Ex : List Nat :=
  [0x00, 0x36, 0xD2, 0x72, 0xF5, 0xC3, 0x50, 0xAC,
   0xAC, 0x50, 0xC3, 0xF5, 0x72, 0xD2, 0x36, 0x00]

/-- The published KSenc for `kseed2Ex`. -/
def kenc2Ex : List Nat :=
  [0x97, 0x9E, 0xC1, 0x3B, 0x1C, 0xBF, 0xE9, 0xDC,
   0xD0, 0x1A, 0xB0, 0xFE, 0xD3, 0x07, 0xEA, 0xE5]

/-- The published KSmac for `kseed2Ex`. -/
def kmac2Ex : List Nat :=
  [0xF1, 0xCB, 0x1F, 0x1F, 0xB5, 0xAD, 0xF2, 0x08,
   0x80, 0x6B, 0x89, 0xDC, 0x57, 0x9D, 0xC1, 0xF8]

/-- The select command of the §8 secure-messaging test vector. -/
def apduEx : List Nat :=
  [0x00, 0xA4, 0x02, 0x0C, 0x02, 0x01, 0x1E]

/-- The published protected APDU of the §8 secure-messaging test vector. -/
def papduEx : List Nat :=
  [0x0C, 0xA4, 0x02, 0x0C, 0x15, 0x87, 0x09, 0x01, 0x63, 0x75, 0x43, 0x29,
   0x08, 0xC0, 0x44, 0xF6, 0x8E, 0x08, 0xBF, 0x8B, 0x92, 0xD6, 0x35, 0xFF,
   0x24, 0xF8, 0x00]

/-- A well-formed command with nine data bytes, which needs two ciphertext
blocks and so exceeds the hardcoded length fields of `enc_apdu`. -/
def apduLongEx : List Nat :=
  [0x00, 0xA4, 0x02, 0x0C, 0x09, 0x01, 0x02, 0x03, 0x04, 0x05, 0x06, 0x07,
   0x08, 0x09]

/-- The value `enc_apdu` produces for `apduLongEx` under the §8 keys. -/
def papduLongEx : List Nat :=
  [0x0C, 0xA4, 0x02, 0x0C, 0x15, 0x87, 0x09, 0x01, 0xB0, 0xC2, 0x67, 0x54,
   0xEB, 0xC1, 0x3E, 0x75, 0x0E, 0x61, 0x34, 0xC1, 0x16, 0xEE, 0x12, 0x69,
   0x8E, 0x08, 0x0E, 0x87, 0x07, 0xF0, 0x68, 0x9C, 0xAF, 0xB8, 0x00]

/-- The chip nonce of the ICAO 9303-11 appendix D handshake example. -/
def rndicEx : List Nat :=
  [0x46, 0x08, 0xF9, 0x19, 0x88, 0x70, 0x22, 0x12]

/-- The reader nonce of the ICAO 9303-11 appendix D handshake example. -/
def rndifdEx : List Nat :=
  [0x78, 0x17, 0x23, 0x86, 0x0C, 0x06, 0xC2, 0x26]

/-- The reader key contribution of the handshake example. -/
def kifdEx : List Nat :=
  [0x0B, 0x79, 0x52, 0x40, 0xCB, 0x70, 0x49, 0xB0,
   0x1C, 0x19, 0xB3, 0x3E, 0x32, 0x80, 0x4F, 0x0B]

/-- The chip key contribution of the handshake example. -/
def kicEx : List Nat :=
  [0x0B, 0x4F, 0x80, 0x32, 0x3E, 0xB3, 0x19, 0x1C,
   0xB0, 0x49, 0x70, 0xCB, 0x40, 0x52, 0x79, 0x0B]

/-- The plaintext of a valid EXTERNAL AUTHENTICATE chip response:
`rnd.ic ‖ rnd.ifd ‖ k.ic`. -/
def plainEx : List Nat :=
  rndicEx ++ rndifdEx ++ kicEx

/-- The ciphertext of the valid chip response: `enc_3des kencEx1 plainEx`,
stated as an explicit byte list (proved below). -/
def cipherEx : List Nat :=
  [0x46, 0xB9, 0x34, 0x2A, 0x41, 0x39, 0x6C, 0xD7,
   0x38, 0x6B, 0xF5, 0x80, 0x31, 0x04, 0xD7, 0xCE,
   0xDC, 0x12, 0x2B, 0x91, 0x32, 0x13, 0x9B, 0xAF,
   0x2E, 0xED, 0xC9, 0x4E, 0xE1, 0x78, 0x53, 0x4F]

/-- The retail MAC of `cipherEx` under `kmacEx1`, as an explicit byte list
(proved below). -/
def macEx : List Nat :=
  [0x2F, 0x2D, 0x23, 0x5D, 0x07, 0x4D, 0x74, 0x49]

/-- A valid 40-byte EXTERNAL AUTHENTICATE chip response:
ciphertext followed by its retail MAC under `kmacEx1`. -/
def respEx : List Nat :=
  cipherEx ++ macEx

/-- Every byte produced by `beBytes` is below 256. -/
theorem beBytes_lt {w x b : Nat} (h : b ∈ beBytes w x) : b < 256 := by
  simp only [beBytes, List.mem_map] at h
  obtain ⟨i, _, rfl⟩ := h
  exact Nat.mod_lt _ (by norm_num)

/-- Every byte of a SHA-1 digest is below 256. -/
theorem sha1_bytes_lt {m : List Nat} {b : Nat} (h : b ∈ sha1 m) : b < 256 := by
  simp only [sha1, List.mem_flatten, List.mem_map] at h
  obtain ⟨l, ⟨w, _, rfl⟩, hb⟩ := h
  exact beBytes_lt hb

/-- Parity correction of a byte always yields odd bit parity. -/
theorem parity_fix_odd :
    ∀ b < 256, bitsum8 ((b >>> 1) * 2 + (1 - bitsum8 (b >>> 1) % 2)) % 2 = 1 := by
  decide

/-- Every output byte of `set_parity_bits` over bytes has odd bit parity. -/
theorem set_parity_bits_odd {k : List Nat} (hk : ∀ b ∈ k, b < 256) :
    ∀ b ∈ set_parity_bits k, bitsum8 b % 2 = 1 := by
  intro b hb
  simp only [set_parity_bits, List.mem_map] at hb
  obtain ⟨a, ha, rfl⟩ := hb
  exact parity_fix_odd a (hk a ha)

/-- Indexed XOR over 16 positions coincides with byte-wise `zipWith` XOR on
16-byte lists. -/
theorem rangeMap_getD_eq_zipWith {a b : List Nat}
    (ha : a.length = 16) (hb : b.length = 16) :
    (List.range 16).map (fun i => (a.getD i 0) ^^^ (b.getD i 0)) =
      List.zipWith (fun x y => x ^^^ y) a b := by
  apply List.ext_getElem
  · simp [ha, hb]
  · intro i h1 h2
    have hia : i < a.length := by simp at h1; omega
    have hib : i < b.length := by simp at h1; omega
    simp [List.getD_eq_getElem?_getD, List.getElem?_eq_getElem, hia, hib]

/-- The counter values consumed by sequential protect calls are the
successive wrapped increments of the initial counter. -/
theorem protectRun_consumed (keys : List Nat × List Nat)
    (apdus : List (List Nat)) :
    ∀ ssc0 < 2 ^ 64,
      (protectRun keys ssc0 apdus).2.map Prod.fst =
        (List.range apdus.length).map (fun i => (ssc0 + 1 + i) % 2 ^ 64) := by
  induction apdus with
  | nil => intro s _; simp [protectRun]
  | cons a as ih =>
    intro s hs
    simp only [protectRun, protect, List.map_cons, List.length_cons,
               List.range_succ_eq_map, List.map_map]
    refine List.cons_eq_cons.mpr ⟨by omega, ?_⟩
    rw [ih ((s + 1) % 2 ^ 64) (Nat.mod_lt _ (by norm_num))]
    refine List.map_congr_left ?_
    intro i _
    simp only [Function.comp_apply]
    omega

/-- One step of the retail-MAC CBC compression. -/
theorem macBlocks_cons (k1 h b : Nat) (bs : List Nat) :
    macBlocks k1 h (b :: bs) = macBlocks k1 (desEncBlock k1 (h ^^^ b)) bs :=
  rfl

/-- The retail-MAC CBC compression of no blocks. -/
theorem macBlocks_nil (k1 h : Nat) : macBlocks k1 h [] = h :=
  rfl

/-- One step of the triple-DES CBC encryption. -/
theorem encBlocks_cons (k1 k2 prev b : Nat) (bs : List Nat) :
    encBlocks k1 k2 prev (b :: bs) =
      tdeaEnc k1 k2 (prev ^^^ b) ::
        encBlocks k1 k2 (tdeaEnc k1 k2 (prev ^^^ b)) bs :=
  rfl

/-- The triple-DES CBC encryption of no blocks. -/
theorem encBlocks_nil (k1 k2 prev : Nat) : encBlocks k1 k2 prev [] = [] :=
  rfl

/-- The session keys derived from the appendix D session seed. -/
theorem derive_keys_kseed2 : derive_keys kseed2Ex = (kenc2Ex, kmac2Ex) :=
  rfl

/-- The normal-return shape of `enc_apdu` on commands of 5 bytes or more. -/
theorem enc_apdu_some (kenc kmac : List Nat) (ssc : Nat) (apdu : List Nat)
    (h : ¬ apdu.length < 5) :
    enc_apdu (kenc, kmac) ssc apdu =
      some ((((apdu.headD 0) ||| 0x0C) :: apdu.tail).take 4 ++ [0x15]
        ++ [0x87, 0x09, 0x01]
        ++ enc_3des kenc (pad80 ((((apdu.headD 0) ||| 0x0C) :: apdu.tail).drop 5))
        ++ [0x8E, 0x08]
        ++ mac_3des kmac (beBytes 8 ssc
            ++ ((((apdu.headD 0) ||| 0x0C) :: apdu.tail).take 4
                ++ [0x80, 0x00, 0x00, 0x00])
            ++ [0x87, 0x09, 0x01]
            ++ enc_3des kenc
                (pad80 ((((apdu.headD 0) ||| 0x0C) :: apdu.tail).drop 5)))
        ++ [0x00]) := by
  simp only [enc_apdu, if_neg h]

/-- The single-block ciphertext of the §8 command data under KSenc. -/
theorem enc3_cd3 :
    enc_3des kenc2Ex [0x01, 0x1E, 0x80, 0x00, 0x00, 0x00, 0x00, 0x00] =
      [0x63, 0x75, 0x43, 0x29, 0x08, 0xC0, 0x44, 0xF6] := by
  decide

/-- The retail MAC of the §8 secure-messaging MAC input under KSmac. -/
theorem mac_n3 :
    mac_3des kmac2Ex
      [0x88, 0x70, 0x22, 0x12, 0x0C, 0x06, 0xC2, 0x27,
       0x0C, 0xA4, 0x02, 0x0C, 0x80, 0x00, 0x00, 0x00,
       0x87, 0x09, 0x01,
       0x63, 0x75, 0x43, 0x29, 0x08, 0xC0, 0x44, 0xF6] =
      [0xBF, 0x8B, 0x92, 0xD6, 0x35, 0xFF, 0x24, 0xF8] := by
  have s1 : desEncBlock 0xF1CB1F1FB5ADF208 (0 ^^^ 0x887022120C06C227)
      = 0xA359A1BFD047DC36 := by decide
  have s2 : desEncBlock 0xF1CB1F1FB5ADF208
      (0xA359A1BFD047DC36 ^^^ 0x0CA4020C80000000) = 0x22253A28F4B0E1FE := by
    decide
  have s3 : desEncBlock 0xF1CB1F1FB5ADF208
      (0x22253A28F4B0E1FE ^^^ 0x8709016375432908) = 0x9973B613ACF1F625 := by
    decide
  have s4 : desEncBlock 0xF1CB1F1FB5ADF208
      (0x9973B613ACF1F625 ^^^ 0xC044F68000000000) = 0x273042DAC759BA55 := by
    decide
  have sf : desEncBlock 0xF1CB1F1FB5ADF208
      (desDecBlock 0x806B89DC579DC1F8 0x273042DAC759BA55)
      = 0xBF8B92D635FF24F8 := by decide
  unfold mac_3des
  rw [show fromBeBytes ((kmac2Ex : List Nat).take 8) = 0xF1CB1F1FB5ADF208 from
        by decide,
      show fromBeBytes ((kmac2Ex : List Nat).drop 8) = 0x806B89DC579DC1F8 from
        by decide,
      show (chunkN 8 (pad80
          [0x88, 0x70, 0x22, 0x12, 0x0C, 0x06, 0xC2, 0x27,
           0x0C, 0xA4, 0x02, 0x0C, 0x80, 0x00, 0x00, 0x00,
           0x87, 0x09, 0x01,
           0x63, 0x75, 0x43, 0x29, 0x08, 0xC0, 0x44, 0xF6])).map fromBeBytes =
        [0x887022120C06C227, 0x0CA4020C80000000,
         0x8709016375432908, 0xC044F68000000000] from by decide,
      macBlocks_cons, s1, macBlocks_cons, s2, macBlocks_cons, s3,
      macBlocks_cons, s4, macBlocks_nil, sf]
  decide

/-- The two-block ciphertext of the nine-byte command data under KSenc. -/
theorem enc3_cd5 :
    enc_3des kenc2Ex
      [0x01, 0x02, 0x03, 0x04, 0x05, 0x06, 0x07, 0x08,
       0x09, 0x80, 0x00, 0x00, 0x00, 0x00, 0x00, 0x00] =
      [0xB0, 0xC2, 0x67, 0x54, 0xEB, 0xC1, 0x3E, 0x75,
       0x0E, 0x61, 0x34, 0xC1, 0x16, 0xEE, 0x12, 0x69] := by
  have s1 : tdeaEnc 0x979EC13B1CBFE9DC 0xD01AB0FED307EAE5
      (0 ^^^ 0x0102030405060708) = 0xB0C26754EBC13E75 := by decide
  have s2 : tdeaEnc 0x979EC13B1CBFE9DC 0xD01AB0FED307EAE5
      (0xB0C26754EBC13E75 ^^^ 0x0980000000000000) = 0x0E6134C116EE1269 := by
    decide
  unfold enc_3des
  rw [show fromBeBytes ((kenc2Ex : List Nat).take 8) = 0x979EC13B1CBFE9DC from
        by decide,
      show fromBeBytes ((kenc2Ex : List Nat).drop 8) = 0xD01AB0FED307EAE5 from
        by decide,
      show (chunkN 8
          [0x01, 0x02, 0x03, 0x04, 0x05, 0x06, 0x07, 0x08,
           0x09, 0x80, 0x00, 0x00, 0x00, 0x00, 0x00, 0x00]).map fromBeBytes =
        [0x0102030405060708, 0x0980000000000000] from by decide,
      encBlocks_cons, s1, encBlocks_cons, s2, encBlocks_nil]
  decide

/-- The retail MAC of the long-command MAC input under KSmac. -/
theorem mac_n5 :
    mac_3des kmac2Ex
      [0x88, 0x70, 0x22, 0x12, 0x0C, 0x06, 0xC2, 0x27,
       0x0C, 0xA4, 0x02, 0x0C, 0x80, 0x00, 0x00, 0x00,
       0x87, 0x09, 0x01,
       0xB0, 0xC2, 0x67, 0x54, 0xEB, 0xC1, 0x3E, 0x75,
       0x0E, 0x61, 0x34, 0xC1, 0x16, 0xEE, 0x12, 0x69] =
      [0x0E, 0x87, 0x07, 0xF0, 0x68, 0x9C, 0xAF, 0xB8] := by
  have s1 : desEncBlock 0xF1CB1F1FB5ADF208 (0 ^^^ 0x887022120C06C227)
      = 0xA359A1BFD047DC36 := by decide
  have s2 : desEncBlock 0xF1CB1F1FB5ADF208
      (0xA359A1BFD047DC36 ^^^ 0x0CA4020C80000000) = 0x22253A28F4B0E1FE := by
    decide
  have s3 : desEncBlock 0xF1CB1F1FB5ADF208
      (0x22253A28F4B0E1FE ^^^ 0x870901B0C26754EB) = 0x7AC181013F1DCFA0 := by
    decide
  have s4 : desEncBlock 0xF1CB1F1FB5ADF208
      (0x7AC181013F1DCFA0 ^^^ 0xC13E750E6134C116) = 0xA031A3078FD3AAC7 := by
    decide
  have s5 : desEncBlock 0xF1CB1F1FB5ADF208
      (0xA031A3078FD3AAC7 ^^^ 0xEE12698000000000) = 0x897610D83EBF37FB := by
    decide
  have sf : desEncBlock 0xF1CB1F1FB5ADF208
      (desDecBlock 0x806B89DC579DC1F8 0x897610D83EBF37FB)
      = 0x0E8707F0689CAFB8 := by decide
  unfold mac_3des
  rw [show fromBeBytes ((kmac2Ex : List Nat).take 8) = 0xF1CB1F1FB5ADF208 from
        by decide,
      show fromBeBytes ((kmac2Ex : List Nat).drop 8) = 0x806B89DC579DC1F8 from
        by decide,
      show (chunkN 8 (pad80
          [0x88, 0x70, 0x22, 0x12, 0x0C, 0x06, 0xC2, 0x27,
           0x0C, 0xA4, 0x02, 0x0C, 0x80, 0x00, 0x00, 0x00,
           0x87, 0x09, 0x01,
           0xB0, 0xC2, 0x67, 0x54, 0xEB, 0xC1, 0x3E, 0x75,
           0x0E, 0x61, 0x34, 0xC1, 0x16, 0xEE, 0x12, 0x69])).map fromBeBytes =
        [0x887022120C06C227, 0x0CA4020C80000000, 0x870901B0C26754EB,
         0xC13E750E6134C116, 0xEE12698000000000] from by decide,
      macBlocks_cons, s1, macBlocks_cons, s2, macBlocks_cons, s3,
      macBlocks_cons, s4, macBlocks_cons, s5, macBlocks_nil, sf]
  decide

/-- The retail MAC of the example response ciphertext under `kmacEx1`. -/
theorem mac_cipherEx : mac_3des kmacEx1 cipherEx = macEx := by
  have s1 : desEncBlock 0x7962D9ECE03D1ACD (0 ^^^ 0x46B9342A41396CD7)
      = 0x7C5EBF67FDDE08F1 := by decide
  have s2 : desEncBlock 0x7962D9ECE03D1ACD
      (0x7C5EBF67FDDE08F1 ^^^ 0x386BF5803104D7CE) = 0x32CE9BBDD99FE461 := by
    decide
  have s3 : desEncBlock 0x7962D9ECE03D1ACD
      (0x32CE9BBDD99FE461 ^^^ 0xDC122B9132139BAF) = 0x8E8451857093B46D := by
    decide
  have s4 : desEncBlock 0x7962D9ECE03D1ACD
      (0x8E8451857093B46D ^^^ 0x2EEDC94EE178534F) = 0x3D276388114B619E := by
    decide
  have s5 : desEncBlock 0x7962D9ECE03D1ACD
      (0x3D276388114B619E ^^^ 0x8000000000000000) = 0xC4B4646BB219409F := by
    decide
  have sf : desEncBlock 0x7962D9ECE03D1ACD
      (desDecBlock 0x4C76089DCE131543 0xC4B4646BB219409F)
      = 0x2F2D235D074D7449 := by decide
  unfold mac_3des
  rw [show fromBeBytes ((kmacEx1 : List Nat).take 8) = 0x7962D9ECE03D1ACD from
        by decide,
      show fromBeBytes ((kmacEx1 : List Nat).drop 8) = 0x4C76089DCE131543 from
        by decide,
      show (chunkN 8 (pad80 cipherEx)).map fromBeBytes =
        [0x46B9342A41396CD7, 0x386BF5803104D7CE, 0xDC122B9132139BAF,
         0x2EEDC94EE178534F, 0x8000000000000000] from by decide,
      macBlocks_cons, s1, macBlocks_cons, s2, macBlocks_cons, s3,
      macBlocks_cons, s4, macBlocks_cons, s5, macBlocks_nil, sf]
  decide

/-- Decrypting the example response ciphertext recovers the plaintext
`rnd.ic ‖ rnd.ifd ‖ k.ic`. -/
theorem dec_cipherEx : dec_3des kencEx1 cipherEx = plainEx := by
  decide

/-- The first 32 bytes of the example response are its ciphertext. -/
theorem respEx_take : respEx.take 32 = cipherEx := by
  decide

/-- The example response passes the MAC check. -/
theorem respEx_mac : respEx.drop 32 = mac_3des kmacEx1 (respEx.take 32) := by
  rw [respEx_take, mac_cipherEx]
  decide

/-- The example response passes the chip-nonce check. -/
theorem respEx_nonce1 :
    (dec_3des kencEx1 (respEx.take 32)).take 8 = rndicEx := by
  rw [respEx_take, dec_cipherEx]
  decide

/-- The example response passes the reader-nonce check. -/
theorem respEx_nonce2 :
    ((dec_3des kencEx1 (respEx.take 32)).drop 8).take 8 = rndifdEx := by
  rw [respEx_take, dec_cipherEx]
  decide

/-- The `k.ic` extracted from the example response. -/
theorem respEx_kic :
    (dec_3des kencEx1 (respEx.take 32)).drop 16 = kicEx := by
  rw [respEx_take, dec_cipherEx]
  decide

/-- The success path of the response processing, from the four checks. -/
theorem bac_process_ok_of (kenc kmac ric rifd resp : List Nat)
    (h1 : resp.length = 40) (h2 : resp.drop 32 = mac_3des kmac (resp.take 32))
    (h3 : (dec_3des kenc (resp.take 32)).take 8 = ric)
    (h4 : ((dec_3des kenc (resp.take 32)).drop 8).take 8 = rifd) :
    bac_process kenc kmac ric rifd resp =
      .ok ((dec_3des kenc (resp.take 32)).drop 16) := by
  simp [bac_process, h1, h2, h3, h4]

/-- The example response is accepted and yields the example `k.ic`. -/
theorem bac_process_respEx :
    bac_process kencEx1 kmacEx1 rndicEx rndifdEx respEx = .ok kicEx := by
  rw [bac_process_ok_of kencEx1 kmacEx1 rndicEx rndifdEx respEx (by decide)
        respEx_mac respEx_nonce1 respEx_nonce2, respEx_kic]

/-- C1: processing the EXTERNAL AUTHENTICATE response fails with an error
(no unhandled fault) whenever the response is not exactly 40 bytes, the
retail MAC recomputed under Kmac over the first 32 bytes differs from the
trailing 8, or the plaintext decrypted under Kenc fails either nonce
check; only when every check passes is `k.ic` returned, as plaintext bytes
16..32. -/
theorem c1_bac_response_checks (kenc kmac rnd_ic rnd_ifd resp : List Nat) :
    (resp.length ≠ 40 →
      bac_process kenc kmac rnd_ic rnd_ifd resp = .error ()) ∧
    (resp.drop 32 ≠ mac_3des kmac (resp.take 32) →
      bac_process kenc kmac rnd_ic rnd_ifd resp = .error ()) ∧
    ((dec_3des kenc (resp.take 32)).take 8 ≠ rnd_ic →
      bac_process kenc kmac rnd_ic rnd_ifd resp = .error ()) ∧
    (((dec_3des kenc (resp.take 32)).drop 8).take 8 ≠ rnd_ifd →
      bac_process kenc kmac rnd_ic rnd_ifd resp = .error ()) ∧
    (resp.length = 40 → resp.drop 32 = mac_3des kmac (resp.take 32) →
     (dec_3des kenc (resp.take 32)).take 8 = rnd_ic →
     ((dec_3des kenc (resp.take 32)).drop 8).take 8 = rnd_ifd →
      bac_process kenc kmac rnd_ic rnd_ifd resp =
        .ok ((dec_3des kenc (resp.take 32)).drop 16)) := by
  refine ⟨?_, ?_, ?_, ?_,
    fun h1 h2 h3 h4 => bac_process_ok_of kenc kmac rnd_ic rnd_ifd resp
      h1 h2 h3 h4⟩ <;> intro h <;>
  · by_cases h1 : resp.length = 40 <;>
    by_cases h2 : resp.drop 32 = mac_3des kmac (resp.take 32) <;>
    by_cases h3 : (dec_3des kenc (resp.take 32)).take 8 = rnd_ic <;>
    by_cases h4 : ((dec_3des kenc (resp.take 32)).drop 8).take 8 = rnd_ifd <;>
    simp_all [bac_process]

/-- Witness for C1 at the handshake example: the valid response passes all
four checks and yields its plaintext bytes 16..32 as `k.ic`. -/
theorem c1_bac_response_checks_witness :
    bac_process kencEx1 kmacEx1 rndicEx rndifdEx respEx =
      .ok ((dec_3des kencEx1 (respEx.take 32)).drop 16) :=
  (c1_bac_response_checks kencEx1 kmacEx1 rndicEx rndifdEx respEx).2.2.2.2
    (by decide) respEx_mac respEx_nonce1 respEx_nonce2

/-- C2: the key-derivation test vectors of §8: the MRZ example seed and its
Kenc/Kmac, and the session-seed example Kenc/Kmac. -/
theorem c2_derive_keys_vectors :
    seed_from_mrz (strBytes "L898902C<369080619406236") = seedEx1 ∧
    derive_keys seedEx1 = (kencEx1, kmacEx1) ∧
    derive_keys kseed2Ex = (kenc2Ex, kmac2Ex) :=
  ⟨rfl, rfl, derive_keys_kseed2⟩

/-- C3: the secure-messaging test vector of §8: under the session keys of
`kseed2Ex` with the given counter, `enc_apdu` maps the select command to
exactly the published protected APDU. -/
theorem c3_enc_apdu_vector :
    enc_apdu (derive_keys kseed2Ex) 0x887022120C06C227 apduEx =
      some papduEx := by
  rw [derive_keys_kseed2,
      enc_apdu_some kenc2Ex kmac2Ex 0x887022120C06C227 apduEx (by decide),
      show pad80 ((((apduEx.headD 0) ||| 0x0C) :: apduEx.tail).drop 5) =
        [0x01, 0x1E, 0x80, 0x00, 0x00, 0x00, 0x00, 0x00] from by decide,
      enc3_cd3,
      show beBytes 8 0x887022120C06C227
          ++ ((((apduEx.headD 0) ||| 0x0C) :: apduEx.tail).take 4
              ++ [0x80, 0x00, 0x00, 0x00])
          ++ [0x87, 0x09, 0x01]
          ++ [0x63, 0x75, 0x43, 0x29, 0x08, 0xC0, 0x44, 0xF6] =
        [0x88, 0x70, 0x22, 0x12, 0x0C, 0x06, 0xC2, 0x27,
         0x0C, 0xA4, 0x02, 0x0C, 0x80, 0x00, 0x00, 0x00,
         0x87, 0x09, 0x01,
         0x63, 0x75, 0x43, 0x29, 0x08, 0xC0, 0x44, 0xF6] from by decide,
      mac_n3]
  decide

/-- C4: on a successful handshake the session keys are `derive_keys` of the
byte-wise XOR of `k.ifd` and `k.ic`, and the initial send sequence counter
is the big-endian integer of the low halves of the two nonces. -/
theorem c4_session_setup (kenc kmac rnd_ic rnd_ifd k_ifd resp k_ic : List Nat)
    (hic : rnd_ic.length = 8) (hifd : rnd_ifd.length = 8)
    (hkifd : k_ifd.length = 16) (hkic : k_ic.length = 16)
    (h : bac_process kenc kmac rnd_ic rnd_ifd resp = .ok k_ic) :
    bac_handshake kenc kmac rnd_ic rnd_ifd k_ifd resp =
      .ok (derive_keys (List.zipWith (fun x y => x ^^^ y) k_ifd k_ic),
           fromBeBytes (rnd_ic.drop 4 ++ rnd_ifd.drop 4)) := by
  simp only [bac_handshake, h]
  rw [rangeMap_getD_eq_zipWith hkifd hkic,
      List.take_of_length_le (by simp [hic, hifd])]

/-- Witness for C4 at the handshake example. -/
theorem c4_session_setup_witness :
    bac_handshake kencEx1 kmacEx1 rndicEx rndifdEx kifdEx respEx =
      .ok (derive_keys (List.zipWith (fun x y => x ^^^ y) kifdEx kicEx),
           fromBeBytes (rndicEx.drop 4 ++ rndifdEx.drop 4)) :=
  c4_session_setup kencEx1 kmacEx1 rndicEx rndifdEx kifdEx respEx kicEx
    (by decide) (by decide) (by decide) (by decide) bac_process_respEx

/-- C5: the claim that `enc_apdu` computes the Lc field and the tag-0x87
length octet from the actual encoded sizes fails: for a command whose nine
data bytes need two ciphertext blocks, the output is 35 bytes, so its body
after the header and length byte is 29 = 0x1D bytes and its DO87 value is
17 = 0x11 bytes, yet the emitted Lc is still the hardcoded 0x15 and the
DO87 length octet the hardcoded 0x09. -/
theorem c5_hardcoded_length_bug :
    enc_apdu (derive_keys kseed2Ex) 0x887022120C06C227 apduLongEx =
      some papduLongEx ∧
    papduLongEx.length = 35 ∧
    papduLongEx.getD 4 0 = 0x15 ∧
    papduLongEx.getD 6 0 = 0x09 ∧
    (0x01 :: enc_3des kenc2Ex (pad80 (apduLongEx.drop 5))).length = 0x11 ∧
    papduLongEx.getD 4 0 ≠ papduLongEx.length - 6 ∧
    papduLongEx.getD 6 0 ≠ 0x11 := by
  refine ⟨?_, by decide, by decide, by decide, ?_, by decide, by decide⟩
  · rw [derive_keys_kseed2,
        enc_apdu_some kenc2Ex kmac2Ex 0x887022120C06C227 apduLongEx (by decide),
        show pad80 ((((apduLongEx.headD 0) ||| 0x0C) :: apduLongEx.tail).drop 5)
          = [0x01, 0x02, 0x03, 0x04, 0x05, 0x06, 0x07, 0x08,
             0x09, 0x80, 0x00, 0x00, 0x00, 0x00, 0x00, 0x00] from by decide,
        enc3_cd5,
        show beBytes 8 0x887022120C06C227
            ++ ((((apduLongEx.headD 0) ||| 0x0C) :: apduLongEx.tail).take 4
                ++ [0x80, 0x00, 0x00, 0x00])
            ++ [0x87, 0x09, 0x01]
            ++ [0xB0, 0xC2, 0x67, 0x54, 0xEB, 0xC1, 0x3E, 0x75,
                0x0E, 0x61, 0x34, 0xC1, 0x16, 0xEE, 0x12, 0x69] =
          [0x88, 0x70, 0x22, 0x12, 0x0C, 0x06, 0xC2, 0x27,
           0x0C, 0xA4, 0x02, 0x0C, 0x80, 0x00, 0x00, 0x00,
           0x87, 0x09, 0x01,
           0xB0, 0xC2, 0x67, 0x54, 0xEB, 0xC1, 0x3E, 0x75,
           0x0E, 0x61, 0x34, 0xC1, 0x16, 0xEE, 0x12, 0x69] from by decide,
        mac_n5]
    decide
  · rw [show pad80 ((apduLongEx : List Nat).drop 5) =
          [0x01, 0x02, 0x03, 0x04, 0x05, 0x06, 0x07, 0x08,
           0x09, 0x80, 0x00, 0x00, 0x00, 0x00, 0x00, 0x00] from by decide,
        enc3_cd5]
    decide

/-- C6: each protect call consumes exactly one counter value, the wrapped
increment of the previous one, so N sequential calls from `ssc0` consume
exactly `ssc0 + 1 .. ssc0 + N` (modulo `2 ^ 64`), each exactly once. -/
theorem c6_ssc_consumption (keys : List Nat × List Nat)
    (apdus : List (List Nat)) (ssc0 : Nat) (h0 : ssc0 < 2 ^ 64) :
    ((protectRun keys ssc0 apdus).2.map Prod.fst =
      (List.range apdus.length).map (fun i => (ssc0 + 1 + i) % 2 ^ 64)) ∧
    (apdus.length ≤ 2 ^ 64 →
      ((protectRun keys ssc0 apdus).2.map Prod.fst).Nodup) := by
  refine ⟨protectRun_consumed keys apdus ssc0 h0, ?_⟩
  intro hn
  rw [protectRun_consumed keys apdus ssc0 h0]
  refine (List.nodup_range _).map_on ?_
  intro i hi j hj hf
  simp only [List.mem_range] at hi hj
  omega

/-- Witness for C6: two protect calls from counter 5. -/
theorem c6_ssc_consumption_witness :
    ((protectRun (derive_keys kseed2Ex) 5 [apduEx, apduEx]).2.map Prod.fst =
      (List.range ([apduEx, apduEx] : List (List Nat)).length).map
        (fun i => (5 + 1 + i) % 2 ^ 64)) ∧
    (([apduEx, apduEx] : List (List Nat)).length ≤ 2 ^ 64 →
      ((protectRun (derive_keys kseed2Ex) 5 [apduEx, apduEx]).2.map
        Prod.fst).Nodup) :=
  c6_ssc_consumption (derive_keys kseed2Ex) [apduEx, apduEx] 5 (by norm_num)

/-- C7: `derive_key` is the parity-corrected 16-byte truncation of
SHA-1(seed ‖ big-endian counter), `derive_keys` uses counters 1 and 2, and
every byte of a derived key has odd bit parity. -/
theorem c7_derive_key_parity (seed : List Nat) (counter : Nat) :
    derive_key seed counter =
      set_parity_bits ((sha1 (seed ++ beBytes 4 counter)).take 16) ∧
    derive_keys seed = (derive_key seed 1, derive_key seed 2) ∧
    (∀ b ∈ derive_key seed counter, bitsum8 b % 2 = 1) := by
  refine ⟨rfl, rfl, ?_⟩
  intro b hb
  refine set_parity_bits_odd ?_ b hb
  intro a ha
  exact sha1_bytes_lt (List.mem_of_mem_take ha)

/-- Witness for C7 at the session-seed example: the first KSenc byte 0x97
has odd parity. -/
theorem c7_derive_key_parity_witness :
    derive_key kseed2Ex 1 =
      set_parity_bits ((sha1 (kseed2Ex ++ beBytes 4 1)).take 16) ∧
    derive_keys kseed2Ex = (derive_key kseed2Ex 1, derive_key kseed2Ex 2) ∧
    bitsum8 0x97 % 2 = 1 :=
  ⟨(c7_derive_key_parity kseed2Ex 1).1, (c7_derive_key_parity kseed2Ex 1).2.1,
   (c7_derive_key_parity kseed2Ex 1).2.2 0x97 (by decide)⟩

/-- C8: `get_challenge` sends exactly `00 84 00 00 08`, returns the
response bytes exactly when the status is success with no residual data
and the response is exactly 8 bytes, and fails with an error otherwise. -/
theorem c8_get_challenge_spec (sw : Nat) (data : List Nat) :
    get_challenge_apdu = [0x00, 0x84, 0x00, 0x00, 0x08] ∧
    (get_challenge_handle sw data = .ok data ↔
      (is_success sw = true ∧ data_remaining sw = none ∧ data.length = 8)) ∧
    (get_challenge_handle sw data = .error () ↔
      ¬ (is_success sw = true ∧ data_remaining sw = none ∧
          data.length = 8)) := by
  refine ⟨rfl, ?_, ?_⟩ <;>
  · by_cases h1 : is_success sw = true <;>
    by_cases h2 : data_remaining sw = none <;>
    by_cases h3 : data.length = 8 <;>
    simp_all [get_challenge_handle]

/-- Witness for C8 at a successful 8-byte exchange. -/
theorem c8_get_challenge_spec_witness :
    get_challenge_apdu = [0x00, 0x84, 0x00, 0x00, 0x08] ∧
    (get_challenge_handle 0x9000 rndicEx = .ok rndicEx ↔
      (is_success 0x9000 = true ∧ data_remaining 0x9000 = none ∧
        rndicEx.length = 8)) ∧
    (get_challenge_handle 0x9000 rndicEx = .error () ↔
      ¬ (is_success 0x9000 = true ∧ data_remaining 0x9000 = none ∧
          rndicEx.length = 8)) :=
  c8_get_challenge_spec 0x9000 rndicEx

/-- C9: `external_authenticate` panics on any payload not exactly 40
bytes, fails on a non-success status, and on a success status returns the
response bytes with no length or residual-data check; the 40-byte response
requirement is instead enforced afterwards by the response processing of
`main`, which rejects any other length. -/
theorem c9_external_authenticate_behavior (payload : List Nat) (sw : Nat)
    (data : List Nat) :
    (payload.length ≠ 40 →
      external_authenticate payload sw data = .panicked) ∧
    (payload.length = 40 → is_success sw = true →
      external_authenticate payload sw data = .ok data) ∧
    (payload.length = 40 → ¬ is_success sw = true →
      external_authenticate payload sw data = .failed) ∧
    (external_authenticate_apdu payload =
      [0x00, 0x82, 0x00, 0x00, 0x28] ++ payload ++ [0x00]) ∧
    (∀ kenc kmac rnd_ic rnd_ifd : List Nat, data.length ≠ 40 →
      bac_process kenc kmac rnd_ic rnd_ifd data = .error ()) := by
  refine ⟨?_, ?_, ?_, rfl, ?_⟩
  · intro h
    simp [external_authenticate, h]
  · intro h1 h2
    simp [external_authenticate, h1, h2]
  · intro h1 h2
    simp_all [external_authenticate]
  · intro kenc kmac ric rifd h
    simp [bac_process, h]

/-- Witness for C9: a 39-byte payload panics, a 40-byte payload with a
success status returns a 2-byte response unchecked, and the caller-side
processing rejects that 2-byte response. -/
theorem c9_external_authenticate_behavior_witness :
    external_authenticate (List.replicate 39 0) 0x9000 [] = .panicked ∧
    external_authenticate (List.replicate 40 0) 0x9000 [0x01, 0x02] =
      .ok [0x01, 0x02] ∧
    bac_process kencEx1 kmacEx1 rndicEx rndifdEx [0x01, 0x02] = .error () :=
  ⟨(c9_external_authenticate_behavior (List.replicate 39 0) 0x9000 []).1
      (by decide),
   (c9_external_authenticate_behavior (List.replicate 40 0) 0x9000
      [0x01, 0x02]).2.1 (by decide) (by decide),
   (c9_external_authenticate_behavior (List.replicate 40 0) 0x9000
      [0x01, 0x02]).2.2.2.2 kencEx1 kmacEx1 rndicEx rndifdEx (by decide)⟩

/-- C10: `enc_apdu` returns normally exactly on command APDUs of at least
5 bytes; on shorter inputs the unconditional slicing panics, modelled by
`none`. -/
theorem c10_enc_apdu_domain (keys : List Nat × List Nat) (ssc : Nat)
    (apdu : List Nat) :
    (enc_apdu keys ssc apdu).isSome = true ↔ 5 ≤ apdu.length := by
  by_cases h : apdu.length < 5
  · simp [enc_apdu, h]
  · simp [enc_apdu, h]
    omega

/-- Witness for C10 at a minimal 5-byte command. -/
theorem c10_enc_apdu_domain_witness :
    (enc_apdu (derive_keys kseed2Ex) 0
        [0x00, 0xA4, 0x02, 0x0C, 0x00]).isSome = true ↔
      5 ≤ ([0x00, 0xA4, 0x02, 0x0C, 0x00] : List Nat).length :=
  c10_enc_apdu_domain (derive_keys kseed2Ex) 0 [0x00, 0xA4, 0x02, 0x0C, 0x00]

end Icao
